import Mathlib

/-!
Verification of the asset-inventory application (assets app: models.py, views.py).

The development shallowly embeds the four components the claims concern:
the asset-number generator (Asset.generate_asset_number in models.py and the
inlined variant in the asset_create view), the request workflow
(request_asset / asset_detail / process_request in views.py), the stock-take
reconciliation (stock_take_create / stock_take_detail / stock_take_update),
and the report aggregation (reports / download_report).

The database is modelled as explicit lists of records; each view's mutation
becomes a pure function from the old state to the new state.  Python integers
are Nat or Int; nullable columns are Option; Python exceptions become Except.
-/

/-- An Asset row (src/assets/models.py, class Asset).  Only the columns the
claims mention are carried: asset_no, category, department (the department
name, standing in for the foreign key), status, assigned_to (user id) and
purchase_date (modelled as Nat for date comparisons). -/
structure AssetRec where
  asset_no : String
  category : String
  department : String
  status : String
  assigned_to : Option Nat
  purchase_date : Option Nat
deriving DecidableEq

/-- An AssetRequest row (src/assets/models.py, class AssetRequest): asset and
user ids, purpose text, tri-state approved flag, nullable approval date
(timestamps modelled as Nat). -/
structure AssetRequest where
  asset : Nat
  user : Nat
  purpose : String
  approved : Option Bool
  approval_date : Option Nat
deriving DecidableEq

/-- Modelled from the spec: a StockTakeItem row.  The StockTakeItem model
class is imported by src/assets/views.py but its definition is not among the
provided sources; fields follow spec section 3 (expected_quantity,
actual_quantity, notes) plus the primary key used by the POST handler. -/
structure StockTakeItem where
  id : Nat
  expected_quantity : Int
  actual_quantity : Int
  notes : String
deriving DecidableEq

/-- Modelled from the spec: a StockTake row (status, notes) together with its
items.  The StockTake model class is imported by src/assets/views.py but its
definition is not among the provided sources; fields follow spec section 3. -/
structure StockTake where
  status : String
  notes : String
  items : List StockTakeItem
deriving DecidableEq

/-- The two failures Asset.generate_asset_number can raise (both ValueError
in models.py): missing department/category, and retry-bound exhaustion. -/
inductive GenError where
  | missingAttribute
  | numberExhausted
deriving DecidableEq

deriving instance DecidableEq for Except

/-! Decimal rendering and parsing, modelling the Python formatting 04d
and the int() call in models.py line 63 / views.py line 112. -/

/-- The character for one decimal digit. -/
def digitChar : Nat → Char
  | 0 => '0'
  | 1 => '1'
  | 2 => '2'
  | 3 => '3'
  | 4 => '4'
  | 5 => '5'
  | 6 => '6'
  | 7 => '7'
  | 8 => '8'
  | 9 => '9'
  | _ => '?'

/-- Decimal digits of n, most significant first, by fuelled division;
empty for 0 (the caller special-cases 0 as Python str does). -/
def natDigits : Nat → Nat → List Char
  | 0, _ => []
  | fuel + 1, n =>
    if n = 0 then [] else natDigits fuel (n / 10) ++ [digitChar (n % 10)]

/-- Python str of a non-negative integer. -/
def natRepr (n : Nat) : String :=
  if n = 0 then "0" else String.mk (natDigits n n)

/-- Python format 04d: zero-pad the decimal form to at least four characters
(numbers of five or more digits are kept whole). -/
def pad4 (n : Nat) : String :=
  String.mk (List.replicate (4 - (natRepr n).length) '0' ++ (natRepr n).data)

/-- One step of the decimal accumulation done by Python int(). -/
def pyDigitStep (a : Nat) (c : Char) : Nat :=
  a * 10 + (c.toNat - 48)

/-- Python int() applied to a candidate numeric segment: succeeds on a
non-empty all-digit string.  (int() additionally strips surrounding
whitespace and accepts a sign; the segments produced here are split on the
dash character, so a sign cannot occur, and whitespace forms are out of
scope of the claims.) -/
def pyIntDigits (s : String) : Option Nat :=
  if !s.data.isEmpty && s.data.all Char.isDigit then
    some (s.data.foldl pyDigitStep 0)
  else none

/-- One step of scanning for the text after the last dash. -/
def segStep (acc : List Char) (c : Char) : List Char :=
  if c = '-' then [] else acc ++ [c]

/-- Models the Python expression splitting on the dash and taking the last
piece (models.py line 63): the text after the last dash, or the whole string
when no dash occurs. -/
def lastSegment (s : String) : String :=
  String.mk (s.data.foldl segStep [])

/-! The asset-number generator, Asset.generate_asset_number
(src/assets/models.py lines 45-91). -/

/-- The queryset filter shared by both generation call sites: same
department and same category (models.py lines 55-58, views.py lines 104-107). -/
def deptCatFilter (dept cat : String) (a : AssetRec) : Bool :=
  a.department == dept && a.category == cat

/-- Lexicographic comparison of character lists by code point, the order the
database's binary collation gives order_by on a text column. -/
def charListLt : List Char → List Char → Bool
  | [], [] => false
  | [], _ :: _ => true
  | _ :: _, [] => false
  | a :: as, b :: bs =>
    if a.toNat < b.toNat then true
    else if b.toNat < a.toNat then false
    else charListLt as bs

/-- Lexicographic order on strings. -/
def strLtB (a b : String) : Bool :=
  charListLt a.data b.data

/-- Fold step computing the row with the greatest asset_no, modelling
order_by descending on asset_no followed by first(). -/
def maxOptStr (acc : Option String) (s : String) : Option String :=
  match acc with
  | none => some s
  | some m => some (if strLtB m s then s else m)

/-- The asset_no of the last asset for this department and category:
lexicographically greatest asset_no among the filtered rows, none when the
partition is empty (models.py lines 55-58). -/
def lastAssetNo (store : List AssetRec) (dept cat : String) : Option String :=
  ((store.filter (deptCatFilter dept cat)).map (fun a => a.asset_no)).foldl maxOptStr none

/-- The next counter value (models.py lines 60-68): parse the trailing
segment of the last asset_no and add one; 1 when the partition is empty,
the stored asset_no is empty, or the segment does not parse. -/
def nextNumber (lastNo : Option String) : Nat :=
  match lastNo with
  | none => 1
  | some s =>
    if s = "" then 1
    else
      match pyIntDigits (lastSegment s) with
      | some k => k + 1
      | none => 1

/-- The model-level number format (models.py line 71):
full department name, full category code, KOTDA tag, padded counter. -/
def formatAssetNo (deptName cat : String) (n : Nat) : String :=
  deptName ++ "-" ++ cat ++ "-KOTDA-" ++ pad4 n

/-- Whether any stored asset already carries this asset_no; the existence
check is global, not restricted to the partition (models.py line 77,
views.py line 125). -/
def assetNoExists (store : List AssetRec) (no : String) : Bool :=
  store.any (fun a => a.asset_no == no)

/-- The candidate number one loop iteration of generate_asset_number
computes (models.py lines 55-71); each iteration re-runs the same query, so
with no intervening write every attempt computes this same string. -/
def candidateNo (store : List AssetRec) (deptName cat : String) : String :=
  formatAssetNo deptName cat (nextNumber (lastAssetNo store deptName cat))

/-- The bounded retry loop of generate_asset_number (models.py lines 52-89):
each attempt re-derives the candidate from the store and returns it when it
is not already taken; otherwise the attempt counter advances.  Exhaustion
raises (models.py line 91). -/
def genAttempts (store : List AssetRec) (deptName cat : String) : Nat → Except GenError String
  | 0 => .error .numberExhausted
  | attempts + 1 =>
    if assetNoExists store (candidateNo store deptName cat) then
      genAttempts store deptName cat attempts
    else .ok (candidateNo store deptName cat)

/-- Asset.generate_asset_number (models.py lines 45-91): missing department
or falsy (empty) category raises; otherwise up to ten attempts of the retry
loop. -/
def generate_asset_number (store : List AssetRec) (department : Option String) (category : String) : Except GenError String :=
  match department with
  | none => .error .missingAttribute
  | some deptName =>
    if category = "" then .error .missingAttribute
    else genAttempts store deptName category 10

/-- A freshly numbered asset row as saved at the end of a generate-and-create
cycle; the remaining columns take their model defaults. -/
def storedAsset (deptName cat no : String) : AssetRec :=
  { asset_no := no, category := cat, department := deptName,
    status := "available", assigned_to := none, purchase_date := none }

/-- Appending the freshly numbered asset row to the store (the save call at
the end of a generate-and-create cycle). -/
def insertAsset (store : List AssetRec) (deptName cat no : String) : List AssetRec :=
  store ++ [storedAsset deptName cat no]

/-- A generate-then-save cycle driven by the model-level generator (as in
the update_asset_numbers management command): on generator failure the error
surfaces and the store is unchanged. -/
def createAssetModel (store : List AssetRec) (department : Option String) (category : String) : Except GenError (List AssetRec) :=
  match generate_asset_number store department category with
  | .ok no => .ok (insertAsset store (department.getD "") category no)
  | .error e => .error e

/-- The numeric suffix of an asset number: its trailing dash-separated
segment parsed as an integer, 0 when unparsable. -/
def suffixNum (s : String) : Nat :=
  (pyIntDigits (lastSegment s)).getD 0

/-- The retry mechanism as the specification words it (spec section 4.1:
increment and retry on collision): attempts bump the candidate counter by
one instead of re-running the query.  Stated for comparison against
generate_asset_number; the code's loop does not behave this way. -/
def genAttemptsSpec (store : List AssetRec) (deptName cat : String) : Nat → Nat → Except GenError String
  | 0, _ => .error .numberExhausted
  | attempts + 1, n =>
    if assetNoExists store (formatAssetNo deptName cat n) then
      genAttemptsSpec store deptName cat attempts (n + 1)
    else .ok (formatAssetNo deptName cat n)

/-- The whole generator under the specification's increment-and-retry
reading, sharing the candidate derivation with the code. -/
def generate_asset_number_spec (store : List AssetRec) (department : Option String) (category : String) : Except GenError String :=
  match department with
  | none => .error .missingAttribute
  | some deptName =>
    if category = "" then .error .missingAttribute
    else genAttemptsSpec store deptName category 10 (nextNumber (lastAssetNo store deptName category))

/-! The asset_create view's inlined number construction
(src/assets/views.py lines 104-128). -/

/-- First three characters, uppercased (views.py lines 120-121). -/
def takeThreeUpper (s : String) : String :=
  String.mk ((s.data.take 3).map Char.toUpper)

/-- The view-level number format (views.py line 122): three-letter
department and category prefixes instead of the full names. -/
def viewFormatAssetNo (deptName cat : String) (n : Nat) : String :=
  takeThreeUpper deptName ++ "-" ++ takeThreeUpper cat ++ "-KOTDA-" ++ pad4 n

/-- The view's collision bump (views.py lines 125-127): keep incrementing
the counter while the number is taken.  The source loop is unbounded; the
fuel passed below, one more than the store size, always suffices because the
candidates are pairwise distinct and only stored numbers can collide. -/
def viewBump (store : List AssetRec) (deptName cat : String) : Nat → Nat → String
  | 0, n => viewFormatAssetNo deptName cat n
  | fuel + 1, n =>
    if assetNoExists store (viewFormatAssetNo deptName cat n) then
      viewBump store deptName cat fuel (n + 1)
    else viewFormatAssetNo deptName cat n

/-- The asset_no the asset_create view assigns (views.py lines 104-128):
same last-number derivation as the model generator, then the three-letter
prefix format with the collision bump. -/
def asset_create_number (store : List AssetRec) (deptName cat : String) : String :=
  viewBump store deptName cat (store.length + 1) (nextNumber (lastAssetNo store deptName cat))

/-! The request workflow (src/assets/views.py lines 73-85, 172-198,
214-233). -/

/-- The in-memory pair the process_request view works on: one request row
and the asset row it references. -/
structure ProcState where
  req : AssetRequest
  asset : AssetRec
deriving DecidableEq

/-- process_request (views.py lines 214-233): on the approve action set
approved, point the asset at the requester and mark it in use; on any other
action set approved false and leave the asset alone; either way stamp
approval_date with the current time. -/
def process_request (now : Nat) (action : String) (s : ProcState) : ProcState :=
  if action = "approve" then
    { req := { s.req with approved := some true, approval_date := some now },
      asset := { s.asset with assigned_to := some s.req.user, status := "in_use" } }
  else
    { req := { s.req with approved := some false, approval_date := some now },
      asset := s.asset }

/-- A fresh pending request row as saved by request_asset
(views.py lines 180-183): approved and approval_date start null. -/
def mkAssetRequest (a u : Nat) (p : String) : AssetRequest :=
  { asset := a, user := u, purpose := p, approved := none, approval_date := none }

/-- Whether this user already has a pending request for this asset
(the query at views.py lines 77-81). -/
def hasPending (store : List AssetRequest) (a u : Nat) : Bool :=
  store.any (fun r => r.asset == a && r.user == u && r.approved == none)

/-- The can_request flag the asset_detail view passes to its template
(views.py lines 77-81). -/
def can_request (store : List AssetRequest) (a u : Nat) : Bool :=
  !hasPending store a u

/-- request_asset (views.py lines 172-198): the form only requires a
non-empty purpose; when it validates, the new pending request is saved
unconditionally - the view runs no duplicate query.  none models the
invalid-form path where nothing is saved. -/
def request_asset (store : List AssetRequest) (a u : Nat) (p : String) : Option (List AssetRequest) :=
  if p = "" then none
  else some (store ++ [mkAssetRequest a u p])

/-! Stock-take reconciliation (src/assets/views.py lines 764-874). -/

/-- The status-derivation loop of stock_take_detail (views.py lines 822-831)
as a recursion returning the pair of the has_discrepancy and all_completed
flags: a quantity mismatch stops the scan with the discrepancy flag set; a
matching zero count clears the completion flag and the scan continues. -/
def stockTakeFlags : List StockTakeItem → Bool × Bool
  | [] => (false, true)
  | item :: rest =>
    if item.actual_quantity != item.expected_quantity then (true, false)
    else
      let p := stockTakeFlags rest
      (p.1, if item.actual_quantity == 0 then false else p.2)

/-- The status stock_take_detail stores after a count batch
(views.py lines 833-838). -/
def derived_status (items : List StockTakeItem) : String :=
  let p := stockTakeFlags items
  if p.1 then "discrepancy" else if p.2 then "completed" else "in_progress"

/-- The POST branch of stock_take_detail (views.py lines 810-840): write the
submitted count and note into every item (a quantity missing from the form
comes through as 0), then store the re-derived status. -/
def stock_take_detail_post (counts : Nat → Int) (noteOf : Nat → String) (st : StockTake) : StockTake :=
  let items := st.items.map (fun item =>
    { item with actual_quantity := counts item.id, notes := noteOf item.id })
  { st with items := items, status := derived_status items }

/-- The POST branch of stock_take_update (views.py lines 852-869): notes and
status are taken verbatim from the submitted form data. -/
def stock_take_update (notes status : String) (st : StockTake) : StockTake :=
  { st with notes := notes, status := status }

/-! Report aggregation (src/assets/views.py lines 269-395). -/

/-- Assets currently in use among a filtered set (views.py line 306). -/
def countInUse (assets : List AssetRec) : Nat :=
  (assets.filter (fun a => a.status == "in_use")).length

/-- The utilization rate (views.py lines 304-306 and 367-370): in-use count
over total, times one hundred, guarded to 0 for an empty set.  Python float
division is modelled by exact rational division. -/
def utilization_rate (assets : List AssetRec) : ℚ :=
  if assets.length > 0 then ((countInUse assets : ℚ) / (assets.length : ℚ)) * 100 else 0

/-- Division as Python performs it: raising on a zero divisor. -/
def pyDiv (a b : ℚ) : Except String ℚ :=
  if b = 0 then .error "ZeroDivisionError" else .ok (a / b)

/-- The utilization-rate computation with its division made explicitly
checked, to state that the guard keeps the division error unreachable. -/
def utilization_rate_checked (assets : List AssetRec) : Except String ℚ :=
  if assets.length > 0 then
    match pyDiv (countInUse assets : ℚ) (assets.length : ℚ) with
    | .ok q => .ok (q * 100)
    | .error e => .error e
  else .ok 0

/-- One optional equality filter over assets (views.py lines 283-293): a
missing parameter leaves the set unchanged. -/
def filterOptStr (getter : AssetRec → String) (v : Option String) (assets : List AssetRec) : List AssetRec :=
  match v with
  | none => assets
  | some x => assets.filter (fun a => getter a == x)

/-- The purchase-date lower bound (views.py line 296): rows with no
purchase date never match. -/
def filterDateGte (v : Option Nat) (assets : List AssetRec) : List AssetRec :=
  match v with
  | none => assets
  | some b => assets.filter (fun a =>
      match a.purchase_date with
      | some p => decide (b ≤ p)
      | none => false)

/-- The purchase-date upper bound (views.py line 300). -/
def filterDateLte (v : Option Nat) (assets : List AssetRec) : List AssetRec :=
  match v with
  | none => assets
  | some b => assets.filter (fun a =>
      match a.purchase_date with
      | some p => decide (p ≤ b)
      | none => false)

/-- The report views' filter chain over assets (views.py lines 282-301 and
355-365): a logical AND of the supplied filters. -/
def applyFilters (department category status : Option String) (startDate endDate : Option Nat) (assets : List AssetRec) : List AssetRec :=
  filterDateLte endDate (filterDateGte startDate
    (filterOptStr (fun a => a.status) status
      (filterOptStr (fun a => a.category) category
        (filterOptStr (fun a => a.department) department assets))))

/-! Supporting lemmas about the decimal round trip, the trailing segment,
and the generator loop. -/

theorem string_data_append (a b : String) : (a ++ b).data = a.data ++ b.data := by
  cases a; cases b; rfl

theorem digitChar_spec (d : Nat) (h : d < 10) :
    (digitChar d).isDigit = true ∧ (digitChar d).toNat - 48 = d ∧ digitChar d ≠ '-' := by
  interval_cases d <;> exact ⟨by decide, by decide, by decide⟩

theorem natDigits_mem (fuel n : Nat) (c : Char) (hc : c ∈ natDigits fuel n) :
    c.isDigit = true ∧ c ≠ '-' := by
  induction fuel generalizing n with
  | zero => simp [natDigits] at hc
  | succ fuel ih =>
    by_cases h : n = 0
    · simp [natDigits, h] at hc
    · simp only [natDigits, if_neg h, List.mem_append, List.mem_singleton] at hc
      rcases hc with hc | hc
      · exact ih _ hc
      · have h10 : n % 10 < 10 := Nat.mod_lt _ (by norm_num)
        obtain ⟨h1, _, h3⟩ := digitChar_spec _ h10
        exact ⟨hc ▸ h1, hc ▸ h3⟩

theorem natDigits_foldl (fuel : Nat) : ∀ n acc, n ≤ fuel →
    (natDigits fuel n).foldl pyDigitStep acc = acc * 10 ^ (natDigits fuel n).length + n := by
  induction fuel with
  | zero =>
    intro n acc h
    interval_cases n
    simp [natDigits]
  | succ fuel ih =>
    intro n acc h
    by_cases h0 : n = 0
    · simp [natDigits, h0]
    · have hmod : n % 10 < 10 := Nat.mod_lt _ (by norm_num)
      have hdiv : n / 10 ≤ fuel := by
        have := Nat.div_lt_self (Nat.pos_of_ne_zero h0) (by norm_num : 1 < 10)
        omega
      obtain ⟨_, hval, _⟩ := digitChar_spec _ hmod
      simp only [natDigits, if_neg h0, List.foldl_append, List.foldl_cons, List.foldl_nil,
        List.length_append, List.length_singleton]
      rw [ih _ acc hdiv]
      simp only [pyDigitStep, hval]
      have := Nat.div_add_mod n 10
      ring_nf
      omega

theorem foldl_pyDigitStep_zeros (z : Nat) : (List.replicate z '0').foldl pyDigitStep 0 = 0 := by
  induction z with
  | zero => rfl
  | succ z ih => simpa [List.replicate_succ, pyDigitStep] using ih

theorem pyIntDigits_pad4 (n : Nat) : pyIntDigits (pad4 n) = some n := by
  by_cases h0 : n = 0
  · subst h0; decide
  · have hdig : ∀ c ∈ (pad4 n).data, c.isDigit = true := by
      intro c hc
      simp only [pad4, natRepr, if_neg h0, List.mem_append, List.mem_replicate] at hc
      rcases hc with ⟨_, rfl⟩ | hc
      · decide
      · exact (natDigits_mem _ _ _ hc).1
    have hne : (pad4 n).data ≠ [] := by
      have : natDigits n n ≠ [] := by
        obtain ⟨m, rfl⟩ := Nat.exists_eq_succ_of_ne_zero h0
        simp [natDigits]
      simp only [pad4, natRepr, if_neg h0]
      intro hcontra
      rcases List.append_eq_nil.mp hcontra with ⟨_, h2⟩
      exact this h2
    have hval : (pad4 n).data.foldl pyDigitStep 0 = n := by
      simp only [pad4, natRepr, if_neg h0, List.foldl_append]
      rw [foldl_pyDigitStep_zeros]
      have := natDigits_foldl n n 0 le_rfl
      simpa using this
    simp only [pyIntDigits]
    rw [if_pos]
    · exact congrArg some hval
    · have h1 : (pad4 n).data.isEmpty = false := by
        cases hd : (pad4 n).data with
        | nil => exact absurd hd hne
        | cons a l => rfl
      have h2 : (pad4 n).data.all Char.isDigit = true :=
        List.all_eq_true.mpr fun c hc => hdig c hc
      simp [h1, h2]

theorem foldl_segStep_dash (l1 l2 : List Char) (acc : List Char) :
    (l1 ++ '-' :: l2).foldl segStep acc = l2.foldl segStep [] := by
  rw [List.foldl_append, List.foldl_cons]
  congr 1

theorem foldl_segStep_no_dash (l : List Char) (h : '-' ∉ l) : ∀ acc,
    l.foldl segStep acc = acc ++ l := by
  induction l with
  | nil => intro acc; simp
  | cons a l ih =>
    intro acc
    have ha : a ≠ '-' := fun hcontra => h (hcontra ▸ List.mem_cons_self a l)
    have hl : '-' ∉ l := fun hcontra => h (List.mem_cons_of_mem a hcontra)
    simp only [List.foldl_cons, segStep, if_neg (fun hc => ha hc)]
    rw [ih hl]
    simp

theorem pad4_no_dash (n : Nat) : '-' ∉ (pad4 n).data := by
  intro hmem
  simp only [pad4, natRepr] at hmem
  by_cases h0 : n = 0
  · simp [h0] at hmem
  · simp only [if_neg h0, List.mem_append, List.mem_replicate] at hmem
    rcases hmem with ⟨_, h⟩ | h
    · exact absurd h (by decide)
    · exact (natDigits_mem _ _ _ h).2 rfl

theorem lastSegment_format (d c : String) (n : Nat) :
    lastSegment (formatAssetNo d c n) = pad4 n := by
  have hdata : (formatAssetNo d c n).data =
      (d.data ++ '-' :: (c.data ++ "-KOTDA".data)) ++ '-' :: (pad4 n).data := by
    simp only [formatAssetNo, string_data_append]
    simp [String.data]
  simp only [lastSegment, hdata, foldl_segStep_dash]
  rw [foldl_segStep_no_dash _ (pad4_no_dash n)]
  simp [pad4]

theorem formatAssetNo_ne_empty (d c : String) (n : Nat) : formatAssetNo d c n ≠ "" := by
  intro h
  have : (formatAssetNo d c n).data = [] := by rw [h]
  simp only [formatAssetNo, string_data_append] at this
  simp at this

theorem nextNumber_format (d c : String) (k : Nat) :
    nextNumber (some (formatAssetNo d c k)) = k + 1 := by
  simp only [nextNumber, if_neg (formatAssetNo_ne_empty d c k), lastSegment_format,
    pyIntDigits_pad4]

theorem suffixNum_format (d c : String) (k : Nat) :
    suffixNum (formatAssetNo d c k) = k := by
  simp [suffixNum, lastSegment_format, pyIntDigits_pad4]

theorem lastAssetNo_append (store : List AssetRec) (r : AssetRec) (d c : String)
    (hr : deptCatFilter d c r = true) :
    lastAssetNo (store ++ [r]) d c = maxOptStr (lastAssetNo store d c) r.asset_no := by
  simp only [lastAssetNo, List.filter_append, List.map_append, List.foldl_append,
    List.filter_cons, hr]
  simp

theorem genAttempts_ok (store : List AssetRec) (d c : String) (k : Nat) (x : String)
    (h : genAttempts store d c k = .ok x) :
    x = candidateNo store d c ∧ assetNoExists store (candidateNo store d c) = false := by
  induction k with
  | zero => simp [genAttempts] at h
  | succ k ih =>
    by_cases hex : assetNoExists store (candidateNo store d c)
    · exact ih (by simpa [genAttempts, hex] using h)
    · simp only [genAttempts, hex] at h
      simp only [Bool.false_eq_true, if_false, Except.ok.injEq] at h
      exact ⟨h.symm, by simpa using hex⟩

theorem genAttempts_exhaust (store : List AssetRec) (d c : String)
    (h : assetNoExists store (candidateNo store d c) = true) :
    ∀ k, genAttempts store d c k = .error .numberExhausted := by
  intro k
  induction k with
  | zero => rfl
  | succ k ih => simpa [genAttempts, h] using ih

theorem generate_ok (store : List AssetRec) (d c : String) (x : String)
    (h : generate_asset_number store (some d) c = .ok x) :
    c ≠ "" ∧ x = candidateNo store d c ∧
      assetNoExists store (candidateNo store d c) = false := by
  by_cases hc : c = ""
  · simp [generate_asset_number, hc] at h
  · exact ⟨hc, genAttempts_ok store d c 10 x (by simpa [generate_asset_number, hc] using h)⟩

theorem assetNoExists_insert (store : List AssetRec) (d c no : String) :
    assetNoExists (insertAsset store d c no) no = true := by
  simp [assetNoExists, insertAsset, storedAsset, List.any_append]

theorem deptCatFilter_insert (d c no : String) :
    deptCatFilter d c (storedAsset d c no) = true := by
  simp [deptCatFilter, storedAsset]

theorem stockTakeFlags_eq (items : List StockTakeItem) :
    stockTakeFlags items =
      (items.any (fun i => i.actual_quantity != i.expected_quantity),
       !(items.any (fun i => i.actual_quantity != i.expected_quantity)) &&
         items.all (fun i => i.actual_quantity != 0)) := by
  induction items with
  | nil => rfl
  | cons item rest ih =>
    by_cases hm : (item.actual_quantity != item.expected_quantity) = true
    · simp only [stockTakeFlags, if_pos hm, List.any_cons, hm, Bool.true_or,
        Bool.not_true, Bool.false_and]
      simp
    · have hm' : (item.actual_quantity != item.expected_quantity) = false := by
        simpa using hm
      by_cases hz : (item.actual_quantity == 0) = true
      · have hz' : (item.actual_quantity != 0) = false := by
          simp only [bne, hz, Bool.not_true]
        simp only [stockTakeFlags, if_neg hm, ih, List.any_cons, List.all_cons, hm',
          Bool.false_or, if_pos hz, hz', Bool.false_and, Bool.and_false]
        simp
      · have hz' : (item.actual_quantity != 0) = true := by
          have : (item.actual_quantity == 0) = false := by simpa using hz
          simp only [bne, this, Bool.not_false]
        simp only [stockTakeFlags, if_neg hm, ih, List.any_cons, List.all_cons, hm',
          Bool.false_or, if_neg hz, hz', Bool.true_and]
        simp

theorem derived_status_eq (items : List StockTakeItem) :
    derived_status items =
      (if items.any (fun i => i.actual_quantity != i.expected_quantity) then "discrepancy"
       else if items.all (fun i => i.actual_quantity != 0) then "completed"
       else "in_progress") := by
  rw [derived_status, stockTakeFlags_eq]
  by_cases ha : items.any (fun i => i.actual_quantity != i.expected_quantity) <;> simp [ha]

/-! Concrete records used by the witnesses and counterexamples. -/

/-- A stored asset whose counter sits at the four-digit padding limit. -/
def asset9999 : AssetRec := storedAsset "IT" "technology" "IT-technology-KOTDA-9999"

/-- The asset the generator produces right after asset9999. -/
def asset10000 : AssetRec := storedAsset "IT" "technology" "IT-technology-KOTDA-10000"

/-- A pending request by user 7 for asset 1. -/
def pendingReq : AssetRequest := mkAssetRequest 1 7 "need it"

/-- A request-and-asset pair with the request still pending. -/
def pendingState : ProcState :=
  { req := { asset := 1, user := 7, purpose := "field work",
             approved := none, approval_date := none },
    asset := storedAsset "IT" "technology" "IT-technology-KOTDA-0001" }

/-- A request-and-asset pair whose request was already approved. -/
def decidedState : ProcState :=
  { req := { asset := 1, user := 7, purpose := "field work",
             approved := some true, approval_date := some 5 },
    asset := storedAsset "IT" "technology" "IT-technology-KOTDA-0001" }

/-- A stock take whose single item was counted and matches, so its stored
status agrees with the derivation rule. -/
def stMatched : StockTake :=
  { status := "completed", notes := "",
    items := [{ id := 0, expected_quantity := 1, actual_quantity := 1, notes := "" }] }

/-! Claim C1. -/

/-- Claim C1: deciding a pending request with the approve action sets
approved to true, stamps approval_date with the current time, assigns the
asset to the requesting user and marks it in use; any other action sets
approved to false, stamps approval_date and never mutates the asset;
approval_date is set to the current time regardless of outcome. -/
theorem process_request_decides (now : Nat) (action : String) (s : ProcState)
    (hpending : s.req.approved = none) :
    (process_request now action s).req.approval_date = some now ∧
    (action = "approve" →
      (process_request now action s).req.approved = some true ∧
      (process_request now action s).asset.assigned_to = some s.req.user ∧
      (process_request now action s).asset.status = "in_use") ∧
    (action ≠ "approve" →
      (process_request now action s).req.approved = some false ∧
      (process_request now action s).asset = s.asset) := by
  by_cases h : action = "approve" <;> simp [process_request, h]

/-- Claim C1 witness: the theorem applied to a concrete pending request
approved at time 42. -/
theorem process_request_decides_witness :
    (process_request 42 "approve" pendingState).req.approval_date = some 42 ∧
    ("approve" = "approve" →
      (process_request 42 "approve" pendingState).req.approved = some true ∧
      (process_request 42 "approve" pendingState).asset.assigned_to = some pendingState.req.user ∧
      (process_request 42 "approve" pendingState).asset.status = "in_use") ∧
    ("approve" ≠ "approve" →
      (process_request 42 "approve" pendingState).req.approved = some false ∧
      (process_request 42 "approve" pendingState).asset = pendingState.asset) :=
  process_request_decides 42 "approve" pendingState rfl

/-! Claim C2. -/

/-- Claim C2 counterexample: with a pending request for asset 1 by user 7
already stored, a second submission by the same user for the same asset does
not fail - the view runs no duplicate query - and it appends a second
pending request, so the claimed always-fails behaviour is false. -/
theorem request_asset_duplicate_counterexample :
    hasPending [pendingReq] 1 7 = true ∧
    request_asset [pendingReq] 1 7 "still needed" =
      some [pendingReq, mkAssetRequest 1 7 "still needed"] :=
  ⟨by decide, by decide⟩

/-- Claim C2 (amended): while a user has a pending request for an asset, the
asset_detail view computes can_request as false, hiding the request form,
but the request_asset endpoint performs no duplicate check: a repeated
submission with a valid purpose succeeds and stores a second pending
request. -/
theorem request_asset_no_duplicate_guard (store : List AssetRequest) (a u : Nat) (p : String)
    (hp : p ≠ "") (hdup : hasPending store a u = true) :
    can_request store a u = false ∧
    request_asset store a u p = some (store ++ [mkAssetRequest a u p]) := by
  refine ⟨?_, by simp [request_asset, hp]⟩
  simp [can_request, hdup]

/-- Claim C2 witness: the amended theorem applied to the concrete
single-pending-request store. -/
theorem request_asset_no_duplicate_guard_witness :
    can_request [pendingReq] 1 7 = false ∧
    request_asset [pendingReq] 1 7 "second ask" =
      some ([pendingReq] ++ [mkAssetRequest 1 7 "second ask"]) :=
  request_asset_no_duplicate_guard [pendingReq] 1 7 "second ask" (by decide) (by decide)

/-! Claim C3. -/

/-- Claim C3 counterexample: an already-approved request is re-decided by
process_request with the reject action, and its approved field changes,
so a terminal state is not preserved by every operation. -/
theorem process_request_terminal_counterexample :
    decidedState.req.approved = some true ∧
    (process_request 9 "reject" decidedState).req.approved = some false ∧
    (process_request 9 "reject" decidedState).req.approved ≠ decidedState.req.approved :=
  ⟨rfl, by decide, by decide⟩

/-- Claim C3 (amended): process_request checks no state guard: it decides a
request in any state, overwriting approved (true exactly for the approve
action) and approval_date, so an already-decided request can be re-decided
and last write wins. -/
theorem process_request_no_terminal_guard (now : Nat) (action : String) (s : ProcState)
    (hdecided : s.req.approved ≠ none) :
    (process_request now action s).req.approved = some (decide (action = "approve")) ∧
    (process_request now action s).req.approval_date = some now := by
  by_cases h : action = "approve" <;> simp [process_request, h]

/-- Claim C3 witness: the amended theorem applied to the concrete approved
request, re-decided with the reject action at time 9. -/
theorem process_request_no_terminal_guard_witness :
    (process_request 9 "reject" decidedState).req.approved = some (decide ("reject" = "approve")) ∧
    (process_request 9 "reject" decidedState).req.approval_date = some 9 :=
  process_request_no_terminal_guard 9 "reject" decidedState (by decide)

/-! Claim C4. -/

/-- Claim C4 counterexample: with one stored asset numbered 9999 in its
partition, the first generate-and-create cycle returns the number with
suffix 10000, but the second cycle still finds the 9999 number as the
lexicographically greatest stored number, recomputes the now-taken 10000
candidate on every attempt and fails with exhaustion instead of producing a
number whose suffix increases by one. -/
theorem generate_sequential_counterexample :
    generate_asset_number [asset9999] (some "IT") "technology" =
      .ok "IT-technology-KOTDA-10000" ∧
    generate_asset_number (insertAsset [asset9999] "IT" "technology" "IT-technology-KOTDA-10000")
      (some "IT") "technology" = .error .numberExhausted :=
  ⟨by decide, by decide⟩

/-- Claim C4 (amended): the generator derives its candidate from the
lexicographically greatest asset_no of the partition, trailing segment
parsed with default 0, plus one, zero-padded to four digits; and whenever
two sequential generate-and-create cycles for the same department and
category both succeed, the produced numbers differ and their numeric
suffixes increase by exactly one.  (When the padding width is exceeded the
second cycle instead fails with exhaustion, as the counterexample shows.) -/
theorem generate_then_insert_suffix_succ (store : List AssetRec) (d c n1 n2 : String)
    (h1 : generate_asset_number store (some d) c = .ok n1)
    (h2 : generate_asset_number (insertAsset store d c n1) (some d) c = .ok n2) :
    n1 ≠ n2 ∧ suffixNum n2 = suffixNum n1 + 1 := by
  obtain ⟨hc, hn1, hex1⟩ := generate_ok store d c n1 h1
  obtain ⟨-, hn2, hex2⟩ := generate_ok _ d c n2 h2
  have hlast2 : lastAssetNo (insertAsset store d c n1) d c =
      maxOptStr (lastAssetNo store d c) n1 :=
    lastAssetNo_append store _ d c (deptCatFilter_insert d c n1)
  cases hM : lastAssetNo store d c with
  | none =>
    have hn1' : n1 = formatAssetNo d c 1 := by
      rw [hn1, candidateNo, hM]; rfl
    have hcand2 : candidateNo (insertAsset store d c n1) d c = formatAssetNo d c 2 := by
      rw [candidateNo, hlast2, hM]
      simp only [maxOptStr, hn1', nextNumber_format]
    have hs1 : suffixNum n1 = 1 := by rw [hn1']; exact suffixNum_format d c 1
    have hs2 : suffixNum n2 = 2 := by rw [hn2, hcand2]; exact suffixNum_format d c 2
    refine ⟨?_, by omega⟩
    intro heq
    rw [heq, hs2] at hs1
    omega
  | some M =>
    by_cases hlt : strLtB M n1
    · set K := nextNumber (some M) with hK
      have hn1' : n1 = formatAssetNo d c K := by
        rw [hn1, candidateNo, hM]
      have hcand2 : candidateNo (insertAsset store d c n1) d c = formatAssetNo d c (K + 1) := by
        rw [candidateNo, hlast2, hM]
        simp only [maxOptStr]
        rw [if_pos hlt, hn1', nextNumber_format]
      have hs1 : suffixNum n1 = K := by rw [hn1']; exact suffixNum_format d c K
      have hs2 : suffixNum n2 = K + 1 := by rw [hn2, hcand2]; exact suffixNum_format d c (K + 1)
      refine ⟨?_, by omega⟩
      intro heq
      rw [heq, hs2] at hs1
      omega
    · exfalso
      have hcand2 : candidateNo (insertAsset store d c n1) d c = n1 := by
        rw [candidateNo, hlast2, hM]
        simp only [maxOptStr]
        rw [if_neg hlt, hn1, candidateNo, hM]
      rw [hcand2, assetNoExists_insert store d c n1] at hex2
      simp at hex2

/-- Claim C4 witness: two successful cycles from the empty store produce the
0001 and 0002 numbers, distinct with suffixes one apart. -/
theorem generate_then_insert_suffix_succ_witness :
    ("IT-technology-KOTDA-0001" : String) ≠ "IT-technology-KOTDA-0002" ∧
    suffixNum "IT-technology-KOTDA-0002" = suffixNum "IT-technology-KOTDA-0001" + 1 :=
  generate_then_insert_suffix_succ [] "IT" "technology"
    "IT-technology-KOTDA-0001" "IT-technology-KOTDA-0002" (by decide) (by decide)

/-! Claim C5. -/

/-- Claim C5 counterexample: with the 9999 and 10000 numbers both stored,
the candidate 10000 collides; an increment-and-retry loop, as the claim
describes the mechanism, would return the free 10001 number on its second
attempt, but the code re-derives the same candidate from the unchanged
store on every attempt and fails with exhaustion - the generator does not
increment the candidate on retry. -/
theorem generate_retry_counterexample :
    generate_asset_number [asset9999, asset10000] (some "IT") "technology" =
      .error .numberExhausted ∧
    generate_asset_number_spec [asset9999, asset10000] (some "IT") "technology" =
      .ok "IT-technology-KOTDA-10001" :=
  ⟨by decide, by decide⟩

/-- Claim C5 (amended): when the candidate number is already stored, each
retry re-derives the candidate from the store, so with no intervening write
all ten attempts recompute the same taken number and the call fails with
the exhaustion error; and every generator call terminates, returning a
string or an error. -/
theorem generate_retry_bounded (store st2 : List AssetRec) (d c : String)
    (dep2 : Option String) (cat2 : String) (hc : c ≠ "")
    (hcoll : assetNoExists store (candidateNo store d c) = true) :
    generate_asset_number store (some d) c = .error .numberExhausted ∧
    ((∃ s, generate_asset_number st2 dep2 cat2 = .ok s) ∨
      (∃ e, generate_asset_number st2 dep2 cat2 = .error e)) := by
  constructor
  · simp only [generate_asset_number, if_neg hc]
    exact genAttempts_exhaust store d c hcoll 10
  · cases h : generate_asset_number st2 dep2 cat2 with
    | ok s => exact Or.inl ⟨s, rfl⟩
    | error e => exact Or.inr ⟨e, rfl⟩

/-- Claim C5 witness: the amended theorem applied to the concrete colliding
store and to an unrelated successful call. -/
theorem generate_retry_bounded_witness :
    generate_asset_number [asset9999, asset10000] (some "IT") "technology" =
      .error .numberExhausted ∧
    ((∃ s, generate_asset_number [] (some "HR") "furniture" = .ok s) ∨
      (∃ e, generate_asset_number [] (some "HR") "furniture" = .error e)) :=
  generate_retry_bounded [asset9999, asset10000] [] "IT" "technology"
    (some "HR") "furniture" (by decide) (by decide)

/-! Claim C6. -/

/-- Claim C6: generating an asset number with the department missing or the
category blank always fails with the missing-attribute error, and the
generate-and-save cycle built on the generator aborts with the same error,
creating no record. -/
theorem generate_missing_attribute (store : List AssetRec) (d : Option String) (c : String)
    (h : d = none ∨ c = "") :
    generate_asset_number store d c = .error .missingAttribute ∧
    createAssetModel store d c = .error .missingAttribute := by
  rcases h with h | h
  · subst h
    exact ⟨rfl, rfl⟩
  · subst h
    cases d with
    | none => exact ⟨rfl, rfl⟩
    | some dn =>
      have h1 : generate_asset_number store (some dn) "" = .error .missingAttribute := by
        simp [generate_asset_number]
      exact ⟨h1, by simp [createAssetModel, h1]⟩

/-- Claim C6 witness: the theorem applied with the department absent. -/
theorem generate_missing_attribute_witness :
    generate_asset_number [] none "technology" = .error .missingAttribute ∧
    createAssetModel [] none "technology" = .error .missingAttribute :=
  generate_missing_attribute [] none "technology" (Or.inl rfl)

/-! Claim C7. -/

/-- Claim C7 counterexample: for department IT and category technology with
no prior assets, the asset_create view constructs IT-TEC-KOTDA-0001 - the
three-character prefix of IT is IT itself, not ITE - so the claim's
ITE-TEC-KOTDA-0001 is wrong, and the view's number also differs from the
model generator's IT-technology-KOTDA-0001, refuting the claimed equality
of the two paths. -/
theorem asset_number_paths_counterexample :
    asset_create_number [] "IT" "technology" = "IT-TEC-KOTDA-0001" ∧
    asset_create_number [] "IT" "technology" ≠ "ITE-TEC-KOTDA-0001" ∧
    generate_asset_number [] (some "IT") "technology" = .ok "IT-technology-KOTDA-0001" ∧
    asset_create_number [] "IT" "technology" ≠ "IT-technology-KOTDA-0001" :=
  ⟨by decide, by decide, by decide, by decide⟩

/-- Claim C7 (amended): for department IT and category technology with no
prior assets the model-level generator produces IT-technology-KOTDA-0001
while the asset_create view constructs IT-TEC-KOTDA-0001, and the two
disagree: the two generation call sites yield different asset numbers for
the same input. -/
theorem asset_number_paths_diverge :
    generate_asset_number [] (some "IT") "technology" = .ok "IT-technology-KOTDA-0001" ∧
    asset_create_number [] "IT" "technology" = "IT-TEC-KOTDA-0001" ∧
    ("IT-technology-KOTDA-0001" : String) ≠ "IT-TEC-KOTDA-0001" :=
  ⟨by decide, by decide, by decide⟩

/-! Claim C8. -/

/-- Claim C8: after a submitted count batch the stored stock-take status is
discrepancy when any item's actual quantity differs from its expected
quantity (the scan stops at the first mismatch), otherwise completed when
every item's actual quantity is non-zero, otherwise in_progress. -/
theorem stock_take_status_derivation (counts : Nat → Int) (noteOf : Nat → String) (st : StockTake) :
    (stock_take_detail_post counts noteOf st).status =
      (if (stock_take_detail_post counts noteOf st).items.any
            (fun i => i.actual_quantity != i.expected_quantity) then "discrepancy"
       else if (stock_take_detail_post counts noteOf st).items.all
            (fun i => i.actual_quantity != 0) then "completed"
       else "in_progress") := by
  have hpost : (stock_take_detail_post counts noteOf st).status =
      derived_status (stock_take_detail_post counts noteOf st).items := rfl
  rw [hpost, derived_status_eq]

/-! Claim C9. -/

/-- Claim C9 counterexample: a stock take whose only item matches derives
completed, but the stock_take_update view stores the caller-supplied status
verbatim: after updating it to discrepancy the stored status no longer
equals the derivation over the items, so the status is not a pure function
of the items across all operations. -/
theorem stock_take_update_status_counterexample :
    derived_status stMatched.items = stMatched.status ∧
    (stock_take_update "" "discrepancy" stMatched).status = "discrepancy" ∧
    derived_status (stock_take_update "" "discrepancy" stMatched).items = "completed" ∧
    (stock_take_update "" "discrepancy" stMatched).status ≠
      derived_status (stock_take_update "" "discrepancy" stMatched).items :=
  ⟨by decide, rfl, by decide, by decide⟩

/-- Claim C9 (amended): the stored status equals the pure derivation of the
items after every count submission through stock_take_detail, but the
stock_take_update operation writes the caller-supplied status verbatim, so
the correspondence is not an invariant of every operation. -/
theorem stock_take_status_amended (counts : Nat → Int) (noteOf : Nat → String)
    (st st2 : StockTake) (notes newStatus : String) :
    (stock_take_detail_post counts noteOf st).status =
      derived_status (stock_take_detail_post counts noteOf st).items ∧
    (stock_take_update notes newStatus st2).status = newStatus :=
  ⟨rfl, rfl⟩

/-! Claim C10. -/

/-- Claim C10: over any filtered asset set the report's utilization rate is
the in-use count divided by the total, times one hundred, and it is 0 for
an empty set; the explicitly checked form of the computation never returns
the division error. -/
theorem utilization_rate_safe (department category status : Option String)
    (startDate endDate : Option Nat) (assets : List AssetRec) :
    utilization_rate_checked (applyFilters department category status startDate endDate assets) =
      .ok (utilization_rate (applyFilters department category status startDate endDate assets)) ∧
    utilization_rate (applyFilters department category status startDate endDate assets) =
      (if (applyFilters department category status startDate endDate assets).length = 0 then 0
       else ((countInUse (applyFilters department category status startDate endDate assets) : ℚ) /
         ((applyFilters department category status startDate endDate assets).length : ℚ)) * 100) := by
  set l := applyFilters department category status startDate endDate assets with hl
  constructor
  · by_cases h : l.length > 0
    · have hz : ((l.length : ℚ)) ≠ 0 := by
        have : l.length ≠ 0 := Nat.pos_iff_ne_zero.mp h
        exact_mod_cast this
      simp [utilization_rate_checked, utilization_rate, pyDiv, h, hz]
    · simp [utilization_rate_checked, utilization_rate, h]
  · by_cases h : l.length = 0
    · simp [utilization_rate, h]
    · have hpos : l.length > 0 := Nat.pos_of_ne_zero h
      simp [utilization_rate, h, hpos]
